import Mathlib

/-!
Verification of the client-side control-plane library (lsm_mgmt.cpp) of
libstoragemgmt: a shallow embedding of the RPC transport boundary, the
job duality helpers, plugin discovery, and the operation entry points,
with theorems checking the stated contracts.

Machine integers are modelled as Nat/Int with explicit range conditions.
Pointers that only matter as "null or not" are modelled as Bool or as the
OutPtr type below.  Heap allocation (connection_get, strdup, asprintf,
string list append) is modelled as succeeding, except where an explicit
allocation-outcome parameter is part of the embedded control flow
(lsm_connect_password).
-/

namespace Lsm

/-- Stable error-code space of the library (lsm_error_number).  The header
carrying the numeric values is not part of the sources under study, so the
codes are modelled as a symbolic inductive; all the embedded code needs is
that the codes are distinct and comparable. -/
inductive ErrNum where
| ok
| invalidArgument
| invalidConn
| invalidUri
| noMemory
| jobStarted
| transportSerialization
| transportCommunication
| internalError
| invalidSystem
| invalidPool
| invalidVol
| invalidFs
| invalidSs
| invalidSl
| invalidAccessGroup
| invalidNfs
| invalidInit
| invalidErr
| volumeSameSize
deriving DecidableEq, Repr

/-- The dynamic wire Value (tagged union): Null, Boolean, Integer,
String, Array, Object.  The Value implementation itself lives outside the
sources under study; this carrier follows the data model of the spec
(section 3) and the variant tests made by lsm_mgmt.cpp
(valueType() == Value::string_t and so on). -/
inductive Value where
| null
| boolean (b : Bool)
| numeric (n : Int)
| string (s : String)
| array (elems : List Value)
| object (fields : List (String × Value))

/-- Variant tags, mirroring Value::value_type. -/
inductive VType where
| null
| boolean
| numeric
| string
| array
| object
deriving DecidableEq, Repr

/-- Mirror of Value::valueType(). -/
def Value.vtype : Value → VType
| .null => .null
| .boolean _ => .boolean
| .numeric _ => .numeric
| .string _ => .string
| .array _ => .array
| .object _ => .object

/-- Mirror of Value::asString(); returns none where the C++ accessor
raises ValueException (wrong variant). -/
def Value.asString? : Value → Option String
| .string s => some s
| _ => none

/-- Modelled from the spec: the 32-bit signed accessor asInt32_t of the
Dynamic Value (the Value implementation is not under the sources in
scope); section 3 requires width accessors with range checks, failing
with a type-mismatch condition otherwise. -/
def Value.asInt32? : Value → Option Int
| .numeric n => if -(2 ^ 31) ≤ n ∧ n < 2 ^ 31 then some n else none
| _ => none

/-- Modelled from the spec: the 32-bit unsigned accessor asUint32_t of
the Dynamic Value, with range checks as required by section 3. -/
def Value.asUint32? : Value → Option Int
| .numeric n => if 0 ≤ n ∧ n < 2 ^ 32 then some n else none
| _ => none

/-- Structured error detail stored on a connection (lsm_error_ptr):
code plus message, the parts relevant to the embedded control flow. -/
structure ErrRecord where
code : ErrNum
msg : String
deriving DecidableEq, Repr

/-- Connection state visible to the embedded code: the LSM_IS_CONNECT
magic test and the stored last-error record. -/
structure Conn where
valid : Bool
error : Option ErrRecord
deriving DecidableEq, Repr

/-- Mirror of the CONN_SETUP macro: an invalid connection aborts the call
with LSM_ERR_INVALID_CONN (none); otherwise the stored error record is
freed and nulled before the call proceeds. -/
def connSetup (c : Conn) : Option Conn :=
if c.valid then some { c with error := none } else none

/-- Mirror of logException: builds an error record from the code and
message and stores it on the connection via lsmErrorLog (which frees any
previously stored record first, and stores only on a valid connection);
returns the code. -/
def logException (c : Conn) (e : ErrNum) (msg : String) : ErrNum × Conn :=
(e, if c.valid then { c with error := some ⟨e, msg⟩ } else c)

/-- Outcome of one exchange on the session channel, as seen by the rpc
boundary function: a response Value, or one of the exception kinds the
C++ code catches (ValueException, LsmException with a backend-declared
code, EOFException, anything else). -/
inductive TransportOutcome where
| success (v : Value)
| valueException (msg : String)
| lsmException (code : ErrNum) (msg : String)
| eofException
| otherException

/-- Mirror of the static rpc() function of lsm_mgmt.cpp: the single
transport boundary.  A ValueException maps to
LSM_ERR_TRANSPORT_SERIALIZATION, an LsmException passes the
backend-declared code through unmodified, an EOFException maps to
LSM_ERR_TRANSPORT_COMMUNICATION, any other exception maps to
LSM_ERR_INTERNAL_ERROR, and on success the response is returned with
LSM_ERR_OK.  Each failure is also logged on the connection. -/
def rpc (c : Conn) (t : TransportOutcome) : ErrNum × Conn × Option Value :=
match t with
| .success v => (.ok, c, some v)
| .valueException m =>
  let (e, c1) := logException c .transportSerialization "Serialization error"
  let _ := m
  (e, c1, none)
| .lsmException code m =>
  let (e, c1) := logException c code m
  (e, c1, none)
| .eofException =>
  let (e, c1) := logException c .transportCommunication "Plug-in died"
  (e, c1, none)
| .otherException =>
  let (e, c1) := logException c .internalError "Unexpected exception"
  (e, c1, none)

/-- Claim C2: every RPC through the single transport boundary maps
failures exactly as: a serialization/value error yields the
transport-serialization code; a structured backend fault passes the
backend code through unmodified; EOF mid-call yields the
transport-communication code; any other unexpected exception yields the
internal-error code; and on success the response Value is returned with
code OK. -/
theorem rpc_fault_mapping (c : Conn) :
    (∀ v : Value, rpc c (.success v) = (.ok, c, some v)) ∧
    (∀ m : String, (rpc c (.valueException m)).1 = ErrNum.transportSerialization) ∧
    (∀ (code : ErrNum) (m : String), (rpc c (.lsmException code m)).1 = code) ∧
    (rpc c .eofException).1 = ErrNum.transportCommunication ∧
    (rpc c .otherException).1 = ErrNum.internalError := by
  refine ⟨fun v => rfl, fun m => rfl, fun code m => rfl, rfl, rfl⟩

/-- State of a caller-supplied out-pointer: the pointer itself may be
null, or it points at a slot that currently holds null or a non-null
value.  The CHECK_RP macro rejects a null pointer and a slot already
holding a value. -/
inductive OutPtr where
| null
| pointsTo (cur : Option Unit)
deriving DecidableEq, Repr

/-- Mirror of the CHECK_RP macro: true (reject) when the pointer is null
or the dereferenced slot is non-null. -/
def checkRP : OutPtr → Bool
| .null => true
| .pointsTo cur => cur.isSome

/-- Mirror of the CHECK_STR macro: reject a null or empty string; the
null case is folded into the empty string in this embedding. -/
def checkSTR (s : String) : Bool := s.isEmpty

/-- A decoded domain record, as produced by the Entity Codec from an
Object Value; the field set is carried opaquely since no claim inspects
it. -/
structure DecodedRec where
fields : List (String × Value)

/-- Modelled from the spec: value_to_pool of the Entity Codec (the codec
source file is not among the sources in scope); it decodes an Object
Value into a Pool record.  Call sites in lsm_mgmt.cpp invoke it only on
the Object variant. -/
def value_to_pool : Value → Option DecodedRec
| .object f => some ⟨f⟩
| _ => none

/-- Modelled from the spec: value_to_volume of the Entity Codec; decodes
an Object Value into a Volume record. -/
def value_to_volume : Value → Option DecodedRec
| .object f => some ⟨f⟩
| _ => none

/-- Modelled from the spec: value_to_fs of the Entity Codec; decodes an
Object Value into a FileSystem record. -/
def value_to_fs : Value → Option DecodedRec
| .object f => some ⟨f⟩
| _ => none

/-- Modelled from the spec: value_to_ss of the Entity Codec; decodes an
Object Value into a Snapshot record. -/
def value_to_ss : Value → Option DecodedRec
| .object f => some ⟨f⟩
| _ => none

/-- Mirror of the static jobCheck() helper: when the preceding rpc
succeeded, a string response becomes the job id (strdup) and the return
code becomes LSM_ERR_JOB_STARTED; any other response leaves the job slot
null with the rpc code unchanged.  On an rpc failure the response and the
job slot are untouched. -/
def jobCheck (rcIn : ErrNum) (response : Value) (jobIn : Option String) :
    ErrNum × Option String :=
if rcIn = .ok then
  match response with
  | .string s => (.jobStarted, some s)
  | _ => (.ok, none)
else (rcIn, jobIn)

/-- Mirror of the static parse_job_response() helper: on an Array
response, a String first element becomes the job id with return code
LSM_ERR_JOB_STARTED, and an Object second element is decoded by the
conversion function into the materialized record.  A non-Array response
leaves everything untouched.  Arrays shorter than two elements are
outside the defined behaviour of the C++ (unchecked vector indexing) and
are modelled as leaving everything untouched; no theorem relies on that
case.  Returns (record, return code, job id). -/
def parse_job_response (response : Value) (rcIn : ErrNum) (jobIn : Option String)
    (conv : Value → Option DecodedRec) :
    Option DecodedRec × ErrNum × Option String :=
match response with
| .array (r0 :: r1 :: _) =>
  let (rc1, job1) :=
    match r0 with
    | .string s => (ErrNum.jobStarted, some s)
    | _ => (rcIn, jobIn)
  match r1 with
  | .object f => (conv (.object f), rc1, job1)
  | _ => (none, rc1, job1)
| _ => (none, rcIn, jobIn)

/-- A well-behaved backend answers a potentially-asynchronous mutating
call whose result goes through parse_job_response with either
[jobIdString, null] (asynchronous start) or [null, object-or-null]
(synchronous completion, possibly with no record). -/
def wellBehavedJobResponse : Value → Prop := fun v =>
  (∃ s, v = .array [.string s, .null]) ∨
  (∃ w, v = .array [.null, w] ∧ (w = .null ∨ ∃ f, w = .object f))

/-- Claim C1: for a well-behaved backend, a mutating operation routed
through parse_job_response either returns LSM_ERR_JOB_STARTED with a
job id and no materialized record, or returns OK with no job id (and an
optional record) — never both a job id and a record, and never neither;
the same duality holds for the jobCheck-routed operations, whose
response is a bare job id string or anything else (treated as the
synchronous null result). -/
theorem job_duality (conv : Value → Option DecodedRec) (resp : Value)
    (h : wellBehavedJobResponse resp) :
    (let (val, rc, job) := parse_job_response resp .ok none conv
     ((rc = .jobStarted ∧ job.isSome ∧ val = none) ∨
      (rc = .ok ∧ job = none)) ∧ ¬(job.isSome ∧ val.isSome)) ∧
    (∀ r : Value,
     let (rc2, job2) := jobCheck .ok r none
     (rc2 = .jobStarted ∧ job2.isSome) ∨ (rc2 = .ok ∧ job2 = none)) := by
  constructor
  · rcases h with ⟨s, rfl⟩ | ⟨w, rfl, hw | ⟨f, rfl⟩⟩
    · refine ⟨Or.inl ⟨rfl, rfl, rfl⟩, ?_⟩
      simp [parse_job_response]
    · subst hw
      refine ⟨Or.inr ⟨rfl, rfl⟩, ?_⟩
      simp [parse_job_response]
    · refine ⟨Or.inr ⟨rfl, rfl⟩, ?_⟩
      simp [parse_job_response]
  · intro r
    match r with
    | .string s => exact Or.inl ⟨rfl, rfl⟩
    | .null => exact Or.inr ⟨rfl, rfl⟩
    | .boolean b => exact Or.inr ⟨rfl, rfl⟩
    | .numeric n => exact Or.inr ⟨rfl, rfl⟩
    | .array l => exact Or.inr ⟨rfl, rfl⟩
    | .object f => exact Or.inr ⟨rfl, rfl⟩

/-- Witness for C1 at a concrete asynchronous response [jobid, null] with
the Volume decoder. -/
theorem job_duality_witness :
    wellBehavedJobResponse (.array [.string "JOB_7", .null]) ∧
    ((let (val, rc, job) :=
        parse_job_response (.array [.string "JOB_7", .null]) .ok none value_to_volume
      ((rc = .jobStarted ∧ job.isSome ∧ val = none) ∨
       (rc = .ok ∧ job = none)) ∧ ¬(job.isSome ∧ val.isSome)) ∧
     (∀ r : Value,
      let (rc2, job2) := jobCheck .ok r none
      (rc2 = .jobStarted ∧ job2.isSome) ∨ (rc2 = .ok ∧ job2 = none))) :=
  ⟨Or.inl ⟨"JOB_7", rfl⟩,
   job_duality value_to_volume (.array [.string "JOB_7", .null])
     (Or.inl ⟨"JOB_7", rfl⟩)⟩

/-- One entry of the plugin discovery directory, together with the
behaviour the environment exhibits when the scanner probes it: the
outcome of driver_load against the socket, and the outcome of the
plugin_info call on the loaded driver (description/version pair, or the
error code lsm_plugin_info_get returned). -/
structure DirEntry where
name : String
isSock : Bool
driverLoad : ErrNum
pluginInfo : Except ErrNum (String × String)

/-- The readdir loop of lsm_available_plugins_list, carrying the running
return code and the accumulated catalog.  Mirrors the source: a
non-socket entry is skipped; a socket whose driver_load fails makes the
loop break immediately with that code; a socket whose plugin_info fails
leaves the failing code in rc and continues; a fully reachable socket
appends description-sep-version and resets rc to OK.  asprintf and
string list append are modelled as succeeding. -/
def scanLoop (sep : String) : List DirEntry → ErrNum → List String →
    ErrNum × List String
| [], rc, acc => (rc, acc)
| e :: rest, rc, acc =>
  if e.isSock then
    if e.driverLoad = .ok then
      match e.pluginInfo with
      | .ok (desc, ver) => scanLoop sep rest .ok (acc ++ [desc ++ sep ++ ver])
      | .error bad => scanLoop sep rest bad acc
    else (e.driverLoad, acc)
  else scanLoop sep rest rc acc

/-- Mirror of lsm_available_plugins_list: validate arguments, read the
discovery directory (none models an unreadable directory, which yields
LSM_ERR_INTERNAL_ERROR), run the scan loop, and hand the catalog to the
caller only when the final return code is OK (otherwise the list is
freed and nothing is written). -/
def lsm_available_plugins_list (sep : String) (plugins : OutPtr) (flags : Nat)
    (dir : Option (List DirEntry)) : ErrNum × Option (List String) :=
if checkSTR sep ∨ checkRP plugins ∨ flags ≠ 0 then (.invalidArgument, none)
else
  match dir with
  | none => (.internalError, none)
  | some entries =>
    let (rc, lst) := scanLoop sep entries .ok []
    if rc = .ok then (.ok, some lst) else (rc, none)

/-- Claim C3, evaluation at the deciding inputs: an empty directory and a
directory with one non-socket file yield an empty, non-error catalog
(the true part of the claim), but a directory whose single socket entry
has an unreachable backend makes the whole scan fail with that backend
error and no catalog, and a directory whose single socket answers
driver_load but fails plugin_info also fails the whole scan — the entry
is not skipped, refuting the claim that only an unreadable directory is
fatal. -/
theorem available_plugins_list_early_exit :
    lsm_available_plugins_list ":" (.pointsTo none) 0 (some []) = (.ok, some []) ∧
    lsm_available_plugins_list ":" (.pointsTo none) 0
      (some [⟨"README", false, .ok, .ok ("d", "v")⟩]) = (.ok, some []) ∧
    lsm_available_plugins_list ":" (.pointsTo none) 0
      (some [⟨"sim", true, .transportCommunication,
             .error .transportCommunication⟩]) =
      (.transportCommunication, none) ∧
    lsm_available_plugins_list ":" (.pointsTo none) 0
      (some [⟨"sim", true, .ok, .error .internalError⟩]) =
      (.internalError, none) := by
  refine ⟨rfl, rfl, rfl, rfl⟩

/-- Parse outcome of xmlParseURI on the connect URI: the parse fails, or
succeeds without a scheme, or succeeds with a scheme string. -/
inductive UriParse where
| failed
| noScheme
| scheme (s : String)
deriving DecidableEq, Repr

/-- Mirror of lsm_connect_password.  The allocation outcomes of
connection_get and strdup and the result of driver_load are inputs, as
is the parse outcome of the URI.  Returns (return code, whether the
connection was written to the out-pointer, how many times the partially
constructed connection was freed). -/
def lsm_connect_password (uri : String) (connPtr : OutPtr) (timeout : Nat)
    (ePtr : OutPtr) (flags : Nat) (allocOk strdupOk : Bool)
    (parse : UriParse) (driverLoadRc : ErrNum) : ErrNum × Bool × Nat :=
if checkSTR uri ∨ checkRP connPtr ∨ timeout = 0 ∨ checkRP ePtr ∨ flags ≠ 0 then
  (.invalidArgument, false, 0)
else if allocOk = false then (.noMemory, false, 0)
else
  let rc : ErrNum :=
    match parse with
    | .scheme _ => if strdupOk then driverLoadRc else .noMemory
    | _ => .invalidUri
  if rc = .ok then (.ok, true, 0) else (rc, false, 1)

/-- Claim C5: with arguments passing the entry checks and the connection
allocated, a URI parsing without a recognizable scheme (or failing to
parse) yields LSM_ERR_INVALID_URI; on every failure the partially
constructed connection is freed exactly once and the out-pointer is not
written; the out-pointer is written exactly when the result is OK. -/
theorem connect_password_failure_paths (uri : String) (timeout flags : Nat)
    (strdupOk : Bool) (parse : UriParse) (driverLoadRc : ErrNum)
    (huri : checkSTR uri = false) (ht : timeout ≠ 0) (hf : flags = 0) :
    (let r := lsm_connect_password uri (.pointsTo none) timeout (.pointsTo none)
                flags true strdupOk parse driverLoadRc
     ((parse = .noScheme ∨ parse = .failed) → r.1 = .invalidUri) ∧
     (r.1 ≠ .ok → r.2.1 = false ∧ r.2.2 = 1) ∧
     (r.2.1 = true ↔ r.1 = .ok)) := by
  subst hf
  rcases parse with _ | _ | s
  · simp [lsm_connect_password, huri, checkRP, ht]
  · simp [lsm_connect_password, huri, checkRP, ht]
  · rcases strdupOk with _ | _
    · simp [lsm_connect_password, huri, checkRP, ht]
    · by_cases hrc : driverLoadRc = .ok
      · subst hrc; simp [lsm_connect_password, huri, checkRP, ht]
      · simp [lsm_connect_password, huri, checkRP, ht, hrc]

/-- Witness for C5 at a concrete scheme-less URI. -/
theorem connect_password_failure_paths_witness :
    checkSTR "bogus-no-scheme" = false ∧ (30000 : Nat) ≠ 0 ∧
    (let r := lsm_connect_password "bogus-no-scheme" (.pointsTo none) 30000
                (.pointsTo none) 0 true true .noScheme .ok
     ((UriParse.noScheme = .noScheme ∨ UriParse.noScheme = .failed) →
        r.1 = .invalidUri) ∧
     (r.1 ≠ .ok → r.2.1 = false ∧ r.2.2 = 1) ∧
     (r.2.1 = true ↔ r.1 = .ok)) :=
  ⟨rfl, by decide,
   connect_password_failure_paths "bogus-no-scheme" 30000 0 true .noScheme .ok
     rfl (by decide) rfl⟩

/-- Mirror of lsm_connect_close: after CONN_SETUP and the flags check,
the shutdown rpc is issued, then connection_free releases the local
resources unconditionally, and the rpc return code is reported.  Returns
(return code, number of connection_free calls, rpc methods issued). -/
def lsm_connect_close (c : Conn) (flags : Nat) (t : TransportOutcome) :
    ErrNum × Nat × List String :=
match connSetup c with
| none => (.invalidConn, 0, [])
| some c1 =>
  if flags ≠ 0 then (.invalidArgument, 0, [])
  else
    let (rc, _c2, _resp) := rpc c1 t
    (rc, 1, ["shutdown"])

/-- Claim C6: on a valid connection with valid flags, lsm_connect_close
issues exactly the shutdown RPC and frees the connection exactly once,
whatever the RPC outcome, and reports the RPC return code. -/
theorem connect_close_frees_once (c : Conn) (t : TransportOutcome)
    (hc : c.valid = true) :
    lsm_connect_close c 0 t =
      ((rpc { c with error := none } t).1, 1, ["shutdown"]) := by
  simp [lsm_connect_close, connSetup, hc]

/-- Witness for C6 at a concrete connection and a failing (EOF)
shutdown RPC: the connection is still freed exactly once and the
communication fault is reported. -/
theorem connect_close_frees_once_witness :
    (Conn.mk true none).valid = true ∧
    lsm_connect_close ⟨true, none⟩ 0 .eofException =
      (.transportCommunication, 1, ["shutdown"]) :=
  ⟨rfl, connect_close_frees_once ⟨true, none⟩ .eofException rfl⟩

/-- Volume record fields used by the embedded control flow: the
LSM_IS_VOL magic test and the size bookkeeping read by
lsm_volume_resize. -/
structure Volume where
valid : Bool
block_size : Nat
number_of_blocks : Nat
deriving DecidableEq, Repr

/-- Mirror of lsm_volume_resize: CONN_SETUP, the LSM_IS_VOL check, the
argument checks, the local same-size business rule (integer division of
the requested size by the block size compared with the block count),
then the volume_resize rpc and parse_job_response.  Returns (return
code, rpc methods issued, resized volume slot, job slot). -/
def lsm_volume_resize (c : Conn) (volume : Volume) (newSize : Nat)
    (resizedVolume jobPtr : OutPtr) (flags : Nat) (t : TransportOutcome) :
    ErrNum × List String × Option DecodedRec × Option String :=
match connSetup c with
| none => (.invalidConn, [], none, none)
| some c1 =>
  if volume.valid = false then (.invalidVol, [], none, none)
  else if newSize = 0 ∨ checkRP resizedVolume ∨ checkRP jobPtr ∨ newSize = 0 ∨
          flags ≠ 0 then
    (.invalidArgument, [], none, none)
  else if newSize / volume.block_size = volume.number_of_blocks then
    (.volumeSameSize, [], none, none)
  else
    let (rc, _c2, resp) := rpc c1 t
    if rc = .ok then
      match resp with
      | some r =>
        let (val, rc2, job) := parse_job_response r .ok none value_to_volume
        (rc2, ["volume_resize"], val, job)
      | none => (rc, ["volume_resize"], none, none)
    else (rc, ["volume_resize"], none, none)

/-- Claim C4: resizing a valid volume to exactly the size it currently
has (block size times block count, with a positive block size) returns
LSM_ERR_VOLUME_SAME_SIZE and issues no RPC. -/
theorem volume_resize_same_size (c : Conn) (v : Volume) (newSize : Nat)
    (t : TransportOutcome) (hc : c.valid = true) (hv : v.valid = true)
    (hbs : 0 < v.block_size)
    (hsz : newSize = v.block_size * v.number_of_blocks) (hnz : newSize ≠ 0) :
    lsm_volume_resize c v newSize (.pointsTo none) (.pointsTo none) 0 t =
      (.volumeSameSize, [], none, none) := by
  have hdiv : newSize / v.block_size = v.number_of_blocks := by
    rw [hsz, Nat.mul_div_cancel_left _ hbs]
  simp [lsm_volume_resize, connSetup, hc, hv, checkRP, hnz, hdiv]

/-- Witness for C4 at a concrete volume of 512-byte blocks. -/
theorem volume_resize_same_size_witness :
    (Conn.mk true none).valid = true ∧ (Volume.mk true 512 100).valid = true ∧
    0 < (512 : Nat) ∧ (51200 : Nat) = 512 * 100 ∧ (51200 : Nat) ≠ 0 ∧
    lsm_volume_resize ⟨true, none⟩ ⟨true, 512, 100⟩ 51200
      (.pointsTo none) (.pointsTo none) 0 (.success .null) =
      (.volumeSameSize, [], none, none) :=
  ⟨rfl, rfl, by decide, by decide, by decide,
   volume_resize_same_size ⟨true, none⟩ ⟨true, 512, 100⟩ 51200 (.success .null)
     rfl rfl (by decide) (by decide) (by decide)⟩

/-- System record: only the LSM_IS_SYSTEM magic test matters to the
embedded control flow. -/
structure SystemRec where
valid : Bool
deriving DecidableEq, Repr

/-- Pool RAID type argument.  The enum header is not among the sources in
scope, so the carrier lists exactly the enumerators named by the switch
in valid_pool_raid_type, plus a constructor for any other integer a
caller may cast into the enum (the switch default). -/
inductive PoolRaidType where
| raid0
| raid1
| raid3
| raid5
| raid6
| raid10
| raid15
| raid16
| raid50
| raid60
| raid51
| raid61
| jbod
| unknown
| notApplicable
| mixed
| unrecognized (n : Int)
deriving DecidableEq, Repr

/-- Pool member type argument; carrier built like PoolRaidType, from the
switch in valid_pool_member_type. -/
inductive PoolMemberType where
| unknown
| disk
| pool
| volume
| diskMix
| diskAta
| diskSata
| diskSas
| diskFc
| diskSop
| diskScsi
| diskNlSas
| diskHdd
| diskSsd
| diskHybrid
| unrecognized (n : Int)
deriving DecidableEq, Repr

/-- Mirror of valid_pool_raid_type: the switch accepts exactly the named
enumerators and rejects everything else. -/
def valid_pool_raid_type : PoolRaidType → Bool
| .unrecognized _ => false
| _ => true

/-- Mirror of valid_pool_member_type. -/
def valid_pool_member_type : PoolMemberType → Bool
| .unrecognized _ => false
| _ => true

/-- Mirror of lsm_pool_create: CONN_SETUP, the LSM_IS_SYSTEM check
(LSM_ERR_INVALID_SYSTEM), then the combined structural argument check
(name, size, out-pointers, flags, RAID type, member type →
LSM_ERR_INVALID_ARGUMENT), then the pool_create rpc and
parse_job_response.  Returns (return code, rpc methods issued, pool
slot, job slot). -/
def lsm_pool_create (c : Conn) (system : SystemRec) (pool_name : String)
    (size_bytes : Nat) (raid_type : PoolRaidType)
    (member_type : PoolMemberType) (poolPtr jobPtr : OutPtr) (flags : Nat)
    (t : TransportOutcome) :
    ErrNum × List String × Option DecodedRec × Option String :=
match connSetup c with
| none => (.invalidConn, [], none, none)
| some c1 =>
  if system.valid = false then (.invalidSystem, [], none, none)
  else if checkSTR pool_name ∨ size_bytes = 0 ∨ checkRP poolPtr ∨
          checkRP jobPtr ∨ flags ≠ 0 ∨ valid_pool_raid_type raid_type = false ∨
          valid_pool_member_type member_type = false then
    (.invalidArgument, [], none, none)
  else
    let (rc, _c2, resp) := rpc c1 t
    if rc = .ok then
      match resp with
      | some r =>
        let (val, rc2, job) := parse_job_response r .ok none value_to_pool
        (rc2, ["pool_create"], val, job)
      | none => (rc, ["pool_create"], none, none)
    else (rc, ["pool_create"], none, none)

/-- Claim C7: when a structural precondition of lsm_pool_create fails —
an object failing its belongs-to-this-kind check, a null or empty
identifier, a zero size, a bad out-pointer, bad flags, or an
unrecognized RAID or member enum value — the operation returns
LSM_ERR_INVALID_SYSTEM or LSM_ERR_INVALID_ARGUMENT and issues no RPC. -/
theorem pool_create_validates_locally (c : Conn) (system : SystemRec)
    (pool_name : String) (size_bytes : Nat) (raid_type : PoolRaidType)
    (member_type : PoolMemberType) (poolPtr jobPtr : OutPtr) (flags : Nat)
    (t : TransportOutcome) (hc : c.valid = true) :
    (system.valid = false →
      lsm_pool_create c system pool_name size_bytes raid_type member_type
        poolPtr jobPtr flags t = (.invalidSystem, [], none, none)) ∧
    (system.valid = true →
      (checkSTR pool_name = true ∨ size_bytes = 0 ∨ checkRP poolPtr = true ∨
       checkRP jobPtr = true ∨ flags ≠ 0 ∨
       valid_pool_raid_type raid_type = false ∨
       valid_pool_member_type member_type = false) →
      lsm_pool_create c system pool_name size_bytes raid_type member_type
        poolPtr jobPtr flags t = (.invalidArgument, [], none, none)) := by
  constructor
  · intro hs
    simp [lsm_pool_create, connSetup, hc, hs]
  · intro hs hbad
    have hs' : (system.valid = false) = False := by simp [hs]
    simp only [lsm_pool_create, connSetup, hc, if_true, hs']
    simp only [if_false, ite_false]
    rw [if_pos]
    rcases hbad with h | h | h | h | h | h | h <;> simp [h]

/-- Witness for C7 at an unrecognized RAID type value. -/
theorem pool_create_validates_locally_witness :
    (Conn.mk true none).valid = true ∧ (SystemRec.mk true).valid = true ∧
    (checkSTR "p1" = true ∨ (1024 : Nat) = 0 ∨
     checkRP (.pointsTo none) = true ∨ checkRP (.pointsTo none) = true ∨
     (0 : Nat) ≠ 0 ∨ valid_pool_raid_type (.unrecognized 999) = false ∨
     valid_pool_member_type .disk = false) ∧
    lsm_pool_create ⟨true, none⟩ ⟨true⟩ "p1" 1024 (.unrecognized 999) .disk
      (.pointsTo none) (.pointsTo none) 0 (.success .null) =
      (.invalidArgument, [], none, none) := by
  refine ⟨rfl, rfl, ?_, ?_⟩
  · exact Or.inr (Or.inr (Or.inr (Or.inr (Or.inr (Or.inl rfl)))))
  · exact (pool_create_validates_locally ⟨true, none⟩ ⟨true⟩ "p1" 1024
      (.unrecognized 999) .disk (.pointsTo none) (.pointsTo none) 0
      (.success .null) rfl).2 rfl
      (Or.inr (Or.inr (Or.inr (Or.inr (Or.inr (Or.inl rfl))))))

/-- Result of the static jobStatus helper: return code, connection state
after the call, rpc methods issued, the decoded status and
percent-complete outputs, and the third response element handed back to
the typed wrapper. -/
structure JobStatusResult where
rc : ErrNum
conn : Conn
calls : List String
status : Option Int
percent : Option Nat
rv : Value

/-- Mirror of the static jobStatus helper: CONN_SETUP, the non-null
checks on the job id and the two scalar out-pointers, then a single
job_status rpc whose successful response is decoded as the 3-element
sequence [status, percent, result]: the first element via asInt32_t,
the second via asUint32_t truncated to uint8_t, and the third handed
back verbatim.  A response that is not such a sequence raises
ValueException, mapped (at this call site) to LSM_ERR_INTERNAL_ERROR;
responses that are arrays shorter than three elements are outside the
defined behaviour of the C++ and are modelled the same way, and no
theorem relies on them. -/
def jobStatus (c : Conn) (job : Option String) (statusPtr pctPtr : Bool)
    (rv0 : Value) (flags : Nat) (t : TransportOutcome) : JobStatusResult :=
match connSetup c with
| none => ⟨.invalidConn, c, [], none, none, rv0⟩
| some c1 =>
  if job = none ∨ statusPtr = false ∨ pctPtr = false then
    ⟨.invalidArgument, c1, [], none, none, rv0⟩
  else
    let _ := flags
    let (rc, c2, resp) := rpc c1 t
    if rc = .ok then
      match resp with
      | some (.array (j0 :: j1 :: j2 :: _)) =>
        match j0.asInt32?, j1.asUint32? with
        | some st, some pc => ⟨.ok, c2, ["job_status"], some st,
                               some (pc.toNat % 256), j2⟩
        | _, _ =>
          let (e, c3) := logException c2 .internalError "Unexpected type"
          ⟨e, c3, ["job_status"], none, none, rv0⟩
      | _ =>
        let (e, c3) := logException c2 .internalError "Unexpected type"
        ⟨e, c3, ["job_status"], none, none, rv0⟩
    else ⟨rc, c2, ["job_status"], none, none, rv0⟩

/-- Result of a typed job-status wrapper: as JobStatusResult but with the
decoded record slot in place of the raw third element. -/
structure JobStatusRecResult where
rc : ErrNum
conn : Conn
calls : List String
status : Option Int
percent : Option Nat
record : Option DecodedRec

/-- Mirror of lsm_job_status_volume_get: CONN_SETUP, the CHECK_RP and
flags checks, then jobStatus; on success an Object third element is
decoded by value_to_volume and anything else writes NULL to the volume
out-pointer. -/
def lsm_job_status_volume_get (c : Conn) (job : Option String)
    (statusPtr pctPtr : Bool) (volPtr : OutPtr) (flags : Nat)
    (t : TransportOutcome) : JobStatusRecResult :=
match connSetup c with
| none => ⟨.invalidConn, c, [], none, none, none⟩
| some c1 =>
  if checkRP volPtr ∨ flags ≠ 0 then ⟨.invalidArgument, c1, [], none, none, none⟩
  else
    let r := jobStatus c1 job statusPtr pctPtr .null flags t
    if r.rc = .ok then
      match r.rv with
      | .object f => ⟨.ok, r.conn, r.calls, r.status, r.percent,
                      value_to_volume (.object f)⟩
      | _ => ⟨.ok, r.conn, r.calls, r.status, r.percent, none⟩
    else ⟨r.rc, r.conn, r.calls, r.status, r.percent, none⟩

/-- Mirror of lsm_job_status_pool_get: same shape as the volume getter,
with value_to_pool as the decoder; CONN_SETUP runs before the CHECK_RP
validation. -/
def lsm_job_status_pool_get (c : Conn) (job : Option String)
    (statusPtr pctPtr : Bool) (poolPtr : OutPtr) (flags : Nat)
    (t : TransportOutcome) : JobStatusRecResult :=
match connSetup c with
| none => ⟨.invalidConn, c, [], none, none, none⟩
| some c1 =>
  if checkRP poolPtr ∨ flags ≠ 0 then ⟨.invalidArgument, c1, [], none, none, none⟩
  else
    let r := jobStatus c1 job statusPtr pctPtr .null flags t
    if r.rc = .ok then
      match r.rv with
      | .object f => ⟨.ok, r.conn, r.calls, r.status, r.percent,
                      value_to_pool (.object f)⟩
      | _ => ⟨.ok, r.conn, r.calls, r.status, r.percent, none⟩
    else ⟨r.rc, r.conn, r.calls, r.status, r.percent, none⟩

/-- Mirror of lsm_job_status_fs_get, which — unlike the pool and volume
getters — performs no CONN_SETUP of its own: the CHECK_RP and flags
validation runs first against the unmodified connection, and the stored
error record is cleared only inside jobStatus. -/
def lsm_job_status_fs_get (c : Conn) (job : Option String)
    (statusPtr pctPtr : Bool) (fsPtr : OutPtr) (flags : Nat)
    (t : TransportOutcome) : JobStatusRecResult :=
if checkRP fsPtr ∨ flags ≠ 0 then ⟨.invalidArgument, c, [], none, none, none⟩
else
  let r := jobStatus c job statusPtr pctPtr .null flags t
  if r.rc = .ok then
    match r.rv with
    | .object f => ⟨.ok, r.conn, r.calls, r.status, r.percent,
                    value_to_fs (.object f)⟩
    | _ => ⟨.ok, r.conn, r.calls, r.status, r.percent, none⟩
  else ⟨r.rc, r.conn, r.calls, r.status, r.percent, none⟩

/-- Helper: jobStatus on the happy path — valid connection, non-null
job id and scalar out-pointers, a successful job_status rpc whose
response is the 3-element sequence with in-range status and percent. -/
theorem jobStatus_on_success (c : Conn) (j : String) (st pc : Int) (r : Value)
    (flags : Nat) (hc : c.valid = true)
    (hst : -(2 ^ 31) ≤ st ∧ st < 2 ^ 31) (hpc : 0 ≤ pc ∧ pc < 2 ^ 32) :
    jobStatus c (some j) true true .null flags
        (.success (.array [.numeric st, .numeric pc, r])) =
      ⟨.ok, { c with error := none }, ["job_status"], some st,
       some (pc.toNat % 256), r⟩ := by
  have h1 : Value.asInt32? (.numeric st) = some st := by
    simp only [Value.asInt32?]
    exact if_pos hst
  have h2 : Value.asUint32? (.numeric pc) = some pc := by
    simp only [Value.asUint32?]
    exact if_pos hpc
  simp [jobStatus, connSetup, hc, rpc, h1, h2]

/-- Claim C8: polling a job on a valid connection with a non-null job id
makes a single job_status RPC; a successful 3-element response
[status, percent, result] yields the first element as the status, the
second as the percent-complete, and a Null third element writes NULL to
the typed out-pointer while an Object third element is decoded by the
operation decoder (value_to_volume here). -/
theorem job_status_poll_decoding (c : Conn) (j : String) (st pc : Int)
    (r : Value) (hc : c.valid = true)
    (hst : -(2 ^ 31) ≤ st ∧ st < 2 ^ 31) (hpc : 0 ≤ pc ∧ pc < 2 ^ 32)
    (hr : r = .null ∨ ∃ f, r = .object f) :
    (let res := lsm_job_status_volume_get c (some j) true true (.pointsTo none)
                  0 (.success (.array [.numeric st, .numeric pc, r]))
     res.rc = .ok ∧ res.calls = ["job_status"] ∧ res.status = some st ∧
     res.percent = some (pc.toNat % 256) ∧
     (r = .null → res.record = none) ∧
     (∀ f, r = .object f → res.record = some ⟨f⟩)) := by
  have hcv : (Conn.mk c.valid (none : Option ErrRecord)).valid = true := hc
  rcases hr with rfl | ⟨f, rfl⟩
  · have hjs := jobStatus_on_success { c with error := none } j st pc .null 0
      hcv hst hpc
    simp only [hc] at hjs
    refine ⟨?_, ?_, ?_, ?_, ?_, ?_⟩ <;>
      simp [lsm_job_status_volume_get, connSetup, hc, checkRP, hjs]
  · have hjs := jobStatus_on_success { c with error := none } j st pc
      (.object f) 0 hcv hst hpc
    simp only [hc] at hjs
    refine ⟨?_, ?_, ?_, ?_, ?_, ?_⟩ <;>
      simp [lsm_job_status_volume_get, connSetup, hc, checkRP, hjs,
        value_to_volume]

/-- Witness for C8 at a concrete 55-percent active job whose result slot
is Null. -/
theorem job_status_poll_decoding_witness :
    (Conn.mk true none).valid = true ∧
    (-(2 ^ 31) ≤ (1 : Int) ∧ (1 : Int) < 2 ^ 31) ∧
    ((0 : Int) ≤ 55 ∧ (55 : Int) < 2 ^ 32) ∧
    (Value.null = .null ∨ ∃ f, Value.null = .object f) ∧
    (let res := lsm_job_status_volume_get ⟨true, none⟩ (some "JOB_3") true true
                  (.pointsTo none) 0
                  (.success (.array [.numeric 1, .numeric 55, .null]))
     res.rc = .ok ∧ res.calls = ["job_status"] ∧ res.status = some 1 ∧
     res.percent = some ((55 : Int).toNat % 256) ∧
     (Value.null = .null → res.record = none) ∧
     (∀ f, Value.null = .object f → res.record = some ⟨f⟩)) :=
  ⟨rfl, by decide, by decide, Or.inl rfl,
   job_status_poll_decoding ⟨true, none⟩ "JOB_3" 1 55 .null rfl
     (by decide) (by decide) (Or.inl rfl)⟩

/-- Claim C9, evaluation at the deciding input: on a valid connection
holding a stored error record, calling lsm_job_status_fs_get with an
out-pointer that fails CHECK_RP returns LSM_ERR_INVALID_ARGUMENT with
the old error record still stored — the call performed its argument
validation before any clearing of the last-error slot — whereas the
sibling lsm_job_status_pool_get at the same input clears the record
first, as the claim demands of every operation. -/
theorem job_status_fs_get_retains_stale_error :
    (lsm_job_status_fs_get ⟨true, some ⟨.internalError, "old"⟩⟩ (some "J")
       true true (.pointsTo (some ())) 0 (.success .null)).rc =
      .invalidArgument ∧
    (lsm_job_status_fs_get ⟨true, some ⟨.internalError, "old"⟩⟩ (some "J")
       true true (.pointsTo (some ())) 0 (.success .null)).conn.error =
      some ⟨.internalError, "old"⟩ ∧
    (lsm_job_status_pool_get ⟨true, some ⟨.internalError, "old"⟩⟩ (some "J")
       true true (.pointsTo (some ())) 0 (.success .null)).rc =
      .invalidArgument ∧
    (lsm_job_status_pool_get ⟨true, some ⟨.internalError, "old"⟩⟩ (some "J")
       true true (.pointsTo (some ())) 0 (.success .null)).conn.error =
      none := by
  refine ⟨rfl, rfl, rfl, rfl⟩

/-- Mirror of lsm_plugin_info_get: CONN_SETUP, the flags check, the
CHECK_RP checks on both string out-pointers, then the plugin_info rpc
whose response is decoded as the [description, version] pair.  Returns
(return code, rpc methods issued, decoded pair). -/
def lsm_plugin_info_get (c : Conn) (descPtr verPtr : OutPtr) (flags : Nat)
    (t : TransportOutcome) : ErrNum × List String × Option (String × String) :=
match connSetup c with
| none => (.invalidConn, [], none)
| some c1 =>
  if flags ≠ 0 then (.invalidArgument, [], none)
  else if checkRP descPtr ∨ checkRP verPtr then (.invalidArgument, [], none)
  else
    let (rc, _c2, resp) := rpc c1 t
    if rc = .ok then
      match resp with
      | some (.array (d :: v :: _)) =>
        match d.asString?, v.asString? with
        | some ds, some vs => (.ok, ["plugin_info"], some (ds, vs))
        | _, _ => (.internalError, ["plugin_info"], none)
      | _ => (.internalError, ["plugin_info"], none)
    else (rc, ["plugin_info"], none)

/-- Mirror of lsm_access_group_list: CONN_SETUP, then a check of the
out-pointers that only rejects NULL pointers — the pointed-at value is
NOT required to be NULL — then the access_group_list rpc.  Returns
(return code, rpc methods issued). -/
def lsm_access_group_list (c : Conn) (groupsPtr : OutPtr) (countPtr : Bool)
    (flags : Nat) (t : TransportOutcome) : ErrNum × List String :=
match connSetup c with
| none => (.invalidConn, [])
| some c1 =>
  if groupsPtr = .null ∨ countPtr = false ∨ flags ≠ 0 then
    (.invalidArgument, [])
  else
    let (rc, _c2, _resp) := rpc c1 t
    (rc, ["access_group_list"])

/-- Claim C10, counterexample: lsm_access_group_list called with an
out-pointer whose slot already holds a non-NULL value does not return
LSM_ERR_INVALID_ARGUMENT before the RPC — it issues the
access_group_list RPC and succeeds, so the caller-owned value is
overwritten; the claim that every out-pointer operation rejects a
non-NULL pointee fails here. -/
theorem access_group_list_overwrites_pointee :
    lsm_access_group_list ⟨true, none⟩ (.pointsTo (some ())) true 0
      (.success (.array [])) = (.ok, ["access_group_list"]) := by
  rfl

/-- Claim C10 as amended: the operations guarded by CHECK_RP — here
lsm_plugin_info_get over both of its string out-pointers — return
LSM_ERR_INVALID_ARGUMENT without issuing any RPC when an out-pointer is
NULL or its slot holds a non-NULL value, so those operations never
silently overwrite a caller-owned value; array-listing operations such
as lsm_access_group_list check only that the pointer itself is
non-NULL. -/
theorem check_rp_guard_blocks_rpc (c : Conn) (descPtr verPtr : OutPtr)
    (t : TransportOutcome) (hc : c.valid = true)
    (hbad : checkRP descPtr = true ∨ checkRP verPtr = true) :
    lsm_plugin_info_get c descPtr verPtr 0 t = (.invalidArgument, [], none) ∧
    lsm_access_group_list c .null true 0 t = (.invalidArgument, []) := by
  constructor
  · rcases hbad with h | h <;> simp [lsm_plugin_info_get, connSetup, hc, h]
  · simp [lsm_access_group_list, connSetup, hc]

/-- Witness for the amended C10 at a NULL description out-pointer. -/
theorem check_rp_guard_blocks_rpc_witness :
    (Conn.mk true none).valid = true ∧
    (checkRP .null = true ∨ checkRP (.pointsTo none) = true) ∧
    (lsm_plugin_info_get ⟨true, none⟩ .null (.pointsTo none) 0
       (.success .null) = (.invalidArgument, [], none) ∧
     lsm_access_group_list ⟨true, none⟩ .null true 0 (.success .null) =
       (.invalidArgument, [])) :=
  ⟨rfl, Or.inl rfl,
   check_rp_guard_blocks_rpc ⟨true, none⟩ .null (.pointsTo none)
     (.success .null) rfl (Or.inl rfl)⟩

end Lsm
